import Mathlib

/-!
# Verification of the phonebook bot core (src/phonebook_bot.py)

A shallow embedding of the contact-book program: field wrappers
(`Phone.__init__`, `Birthday.__init__`), records, the address book
(a Python dict modelled as an insertion-ordered association list),
the command handlers with the `input_error` decorator, and the
upcoming-birthday computation `AddressBook.get_upcoming_birthdays`.

Python-specific behaviour that the source relies on is modelled
explicitly:
* `re.match(r'^...$', s)` also matches when `s` ends in a single
  trailing newline (CPython semantics of `$`); `\d` is modelled over
  ASCII digits.
* `datetime.strptime(s, '%d.%m.%Y')` matches `%d` with the regex
  alternation `3[01]|[12]\d|0[1-9]|[1-9]`, `%m` with
  `1[0-2]|0[1-9]|[1-9]`, `%Y` with four digits, requires the whole
  string to be consumed, and then validates the calendar date.
  Calling it on a non-string raises `TypeError`.
* `date.replace(year=y)` raises `ValueError` when the month/day does
  not exist in year `y` (February 29 in a non-leap year).
* `==` on `Field` instances (no `__eq__`) is reference identity; this
  matters only for `Record.find_phone`, which gets its own
  identity-aware model.
* Python exceptions are modelled by an explicit `Except` channel;
  mutation of the book that happens before an exception is raised is
  preserved (handlers return the updated book together with the
  error), exactly as in-place mutation behaves in the source.
-/

namespace Phonebook

/-- The exception kinds this program can raise. -/
inductive PyErr where
  | keyError (msg : String)
  | valueError (msg : String)
  | indexError (msg : String)
  | typeError (msg : String)
deriving Repr, DecidableEq

/-- `True` on `.ok`, `False` on `.error`: did the Python call return normally? -/
def exceptOk {α : Type} : Except PyErr α → Bool
  | .ok _ => true
  | .error _ => false

/-- A `datetime.date`: proleptic Gregorian year/month/day. -/
structure PyDate where
  year : Nat
  month : Nat
  day : Nat
deriving Repr, DecidableEq

/-- A leap year in the Gregorian calendar (as `calendar.isleap`). -/
def isLeap (y : Nat) : Bool := y % 4 == 0 && (y % 100 != 0 || y % 400 == 0)

/-- Number of days in month `m` of year `y`. -/
def daysInMonth (y m : Nat) : Nat :=
  if m == 2 then (if isLeap y then 29 else 28)
  else if m == 4 || m == 6 || m == 9 || m == 11 then 30
  else 31

/-- `datetime.date` constructor validity: the check performed by CPython. -/
def validD (y m d : Nat) : Bool :=
  decide (1 ≤ y ∧ y ≤ 9999 ∧ 1 ≤ m ∧ m ≤ 12 ∧ 1 ≤ d ∧ d ≤ daysInMonth y m)

/-- Days of full months before month `m` in year `y`. -/
def daysBeforeMonth (y m : Nat) : Nat :=
  (List.range (m - 1)).foldl (fun acc i => acc + daysInMonth y (i + 1)) 0

/-- `date.toordinal()`: day count with 0001-01-01 ↦ 1 (rata die). -/
def toOrdinal (dt : PyDate) : Nat :=
  (365 * (dt.year - 1) + (dt.year - 1) / 4 + (dt.year - 1) / 400
    + daysBeforeMonth dt.year dt.month + dt.day) - (dt.year - 1) / 100

/-- `date.weekday()`: Monday = 0, …, Saturday = 5, Sunday = 6. -/
def weekday (dt : PyDate) : Nat := (toOrdinal dt + 6) % 7

/-- Python `date` comparison (lexicographic on year, month, day). -/
def pyDateLt (a b : PyDate) : Bool :=
  decide (a.year < b.year ∨ (a.year = b.year ∧
    (a.month < b.month ∨ (a.month = b.month ∧ a.day < b.day))))

/-- The calendar successor of a valid date (`+ timedelta(days=1)`). -/
def nextDayD (dt : PyDate) : PyDate :=
  if dt.day < daysInMonth dt.year dt.month then ⟨dt.year, dt.month, dt.day + 1⟩
  else if dt.month < 12 then ⟨dt.year, dt.month + 1, 1⟩
  else ⟨dt.year + 1, 1, 1⟩

/-- `dt + timedelta(days=n)` for a valid date `dt`. -/
def addDays (dt : PyDate) : Nat → PyDate
  | 0 => dt
  | n + 1 => nextDayD (addDays dt n)

/-- `date.replace(year=y)`: raises `ValueError` when the month/day does not
exist in year `y` (e.g. February 29 outside leap years). -/
def replaceYear (b : PyDate) (y : Nat) : Except PyErr PyDate :=
  if validD y b.month b.day then .ok ⟨y, b.month, b.day⟩
  else .error (.valueError "day is out of range for month")

/-! ## Digits, rendering and the strptime format parser -/

/-- ASCII decimal digit test (the model of `\d`). -/
def isDig (c : Char) : Bool :=
  c == '0' || c == '1' || c == '2' || c == '3' || c == '4' ||
  c == '5' || c == '6' || c == '7' || c == '8' || c == '9'

/-- The digit character for `n < 10`. -/
def digitCharN (n : Nat) : Char := Char.ofNat (48 + n)

/-- Numeric value of a digit character. -/
def charVal (c : Char) : Nat := c.toNat - 48

/-- Two-digit zero-padded decimal rendering (`%d`, `%m` in strftime). -/
def pad2 (n : Nat) : List Char := [digitCharN (n / 10), digitCharN (n % 10)]

/-- Four-digit zero-padded decimal rendering (`%Y` in strftime). -/
def pad4 (n : Nat) : List Char :=
  [digitCharN (n / 1000), digitCharN (n / 100 % 10), digitCharN (n / 10 % 10), digitCharN (n % 10)]

/-- `dt.strftime("%d.%m.%Y")`. -/
def pyStrftimeDMY (dt : PyDate) : String :=
  ⟨pad2 dt.day ++ '.' :: pad2 dt.month ++ '.' :: pad4 dt.year⟩

/-- `str(datetime.date)`: the ISO `YYYY-MM-DD` rendering. -/
def fieldStrOfDate (dt : PyDate) : String :=
  ⟨pad4 dt.year ++ '-' :: pad2 dt.month ++ '-' :: pad2 dt.day⟩

/-- The `%d` regex alternation `3[01]|[12]\d|0[1-9]|[1-9]`, two-character
alternatives (first-character sets are disjoint, so one function captures
the regex alternative order). -/
def dayAlt2 (c1 c2 : Char) : Option Nat :=
  if c1 == '3' && (c2 == '0' || c2 == '1') then some (30 + charVal c2)
  else if (c1 == '1' || c1 == '2') && isDig c2 then some (10 * charVal c1 + charVal c2)
  else if c1 == '0' && (isDig c2 && !(c2 == '0')) then some (charVal c2)
  else none

/-- The common one-character alternative `[1-9]` of `%d` and `%m`. -/
def oneDigitAlt (c : Char) : Option Nat :=
  if isDig c && !(c == '0') then some (charVal c) else none

/-- The `%m` regex alternation `1[0-2]|0[1-9]|[1-9]`, two-character
alternatives. -/
def monthAlt2 (c1 c2 : Char) : Option Nat :=
  if c1 == '1' && (c2 == '0' || c2 == '1' || c2 == '2') then some (10 + charVal c2)
  else if c1 == '0' && (isDig c2 && !(c2 == '0')) then some (charVal c2)
  else none

/-- `%Y` (exactly four digits) followed by end of input: the final segment of
the strptime regex together with the full-consumption check. -/
def parseYearEnd : List Char → Option Nat
  | [a, b, c, d] =>
    if isDig a && isDig b && isDig c && isDig d then
      some (1000 * charVal a + 100 * charVal b + 10 * charVal c + charVal d)
    else none
  | _ => none

/-- The `%m.%Y` tail of the format, two-character month alternative. -/
def parseMY1 (cs : List Char) : Option (Nat × Nat) :=
  match cs with
  | c1 :: c2 :: '.' :: rest =>
    match monthAlt2 c1 c2, parseYearEnd rest with
    | some m, some y => some (m, y)
    | _, _ => none
  | _ => none

/-- The `%m.%Y` tail of the format, one-character month alternative. -/
def parseMY2 (cs : List Char) : Option (Nat × Nat) :=
  match cs with
  | c1 :: '.' :: rest =>
    match oneDigitAlt c1, parseYearEnd rest with
    | some m, some y => some (m, y)
    | _, _ => none
  | _ => none

/-- The `%m.%Y` tail of the format: two-character month alternatives first,
falling back to the one-character alternative (regex backtracking). -/
def parseMY (cs : List Char) : Option (Nat × Nat) :=
  (parseMY1 cs).orElse (fun _ => parseMY2 cs)

/-- `%d.%m.%Y`, two-character day alternatives. -/
def parseDMY1 (cs : List Char) : Option (Nat × Nat × Nat) :=
  match cs with
  | c1 :: c2 :: '.' :: rest =>
    match dayAlt2 c1 c2, parseMY rest with
    | some d, some my => some (d, my.1, my.2)
    | _, _ => none
  | _ => none

/-- `%d.%m.%Y`, one-character day alternative. -/
def parseDMY2 (cs : List Char) : Option (Nat × Nat × Nat) :=
  match cs with
  | c1 :: '.' :: rest =>
    match oneDigitAlt c1, parseMY rest with
    | some d, some my => some (d, my.1, my.2)
    | _, _ => none
  | _ => none

/-- The full `%d.%m.%Y` regex of `_strptime` with its alternative order:
day and month accept one or two digits, the year exactly four, and the
whole input must be consumed. -/
def parseDMY (cs : List Char) : Option (Nat × Nat × Nat) :=
  (parseDMY1 cs).orElse (fun _ => parseDMY2 cs)

/-- The value stored in a record's `birthday` attribute: either a raw string
(what the `add-birthday` handler actually stores) or a `Birthday` field
wrapper holding a parsed `datetime.date` (what the data model prescribes). -/
inductive BirthdayVal where
  | str (s : String)
  | wrapped (d : PyDate)
deriving Repr, DecidableEq

/-- `datetime.strptime(value, "%d.%m.%Y").date()`.  Raises `TypeError` on a
non-string argument, `ValueError` when the string does not match the format
or the date is not a real calendar date. -/
def pyStrptimeDMY : BirthdayVal → Except PyErr PyDate
  | .wrapped _ => .error (.typeError "strptime() argument 1 must be str, not datetime.date")
  | .str s =>
    match parseDMY s.data with
    | none => .error (.valueError ("time data " ++ s ++ " does not match format %d.%m.%Y"))
    | some dmy =>
      if validD dmy.2.2 dmy.2.1 dmy.1 then .ok ⟨dmy.2.2, dmy.2.1, dmy.1⟩
      else .error (.valueError "day is out of range for month")

/-! ## Field wrappers -/

/-- `re.match(r'^\d{10}\x24', value)` as CPython evaluates it: ten digits,
optionally followed by one trailing newline (the `\x24` anchor also matches
just before a final newline). -/
def phoneRe (cs : List Char) : Bool :=
  (cs.length == 10 && cs.all isDig) ||
  (cs.length == 11 && cs.dropLast.all isDig && cs.getLast? == some '\n')

/-- `Phone.__init__`: keeps the raw string when the regex matches, raises
`ValueError` otherwise. -/
def phoneInit (s : String) : Except PyErr String :=
  if phoneRe s.data then .ok s
  else .error (.valueError "Invalid phone number. The number must consist of 10 digits.")

/-- `re.match(r'^\d{2}\.\d{2}\.\d{4}\x24', value)` as CPython evaluates it
(again with the trailing-newline variant of the anchor). -/
def birthShape (cs : List Char) : Bool :=
  match cs with
  | [a, b, '.', c, d, '.', e, f, g, h] =>
    isDig a && isDig b && isDig c && isDig d && isDig e && isDig f && isDig g && isDig h
  | [a, b, '.', c, d, '.', e, f, g, h, '\n'] =>
    isDig a && isDig b && isDig c && isDig d && isDig e && isDig f && isDig g && isDig h
  | _ => false

/-- `Birthday.__init__`: shape regex, then `strptime`; the bare `except`
around `strptime` is re-raised as the "Ensure it exist" `ValueError`.  On
success the field stores the parsed `datetime.date` (not the string). -/
def birthdayInit (s : String) : Except PyErr PyDate :=
  if birthShape s.data then
    match pyStrptimeDMY (.str s) with
    | .ok d => .ok d
    | .error _ => .error (.valueError "Invalid date format. Ensure it exist.")
  else .error (.valueError "Invalid date format. Use the \x27DD.MM.YYYY\x27 format.")

/-! ## Records and the address book -/

/-- The value held in a record's `name` attribute: the command handlers pass
the raw string, while API callers may pass a `Name` field wrapper; `str()`
renders both as the underlying string. -/
inductive NameVal where
  | raw (s : String)
  | wrappedName (s : String)
deriving Repr, DecidableEq

/-- `str(record.name)`. -/
def strOfName : NameVal → String
  | .raw s => s
  | .wrappedName s => s

/-- A `Record`: name, ordered phone list (validated digit strings), optional
birthday attribute. -/
structure PyRecord where
  name : NameVal
  phones : List String
  birthday : Option BirthdayVal
deriving Repr, DecidableEq

/-- The address book: a Python dict from name string to record, modelled as
an insertion-ordered association list. -/
abbrev Book := List (String × PyRecord)

/-- `self.data.get(name, None)`. -/
def dictGet : Book → String → Option PyRecord
  | [], _ => none
  | (k, v) :: t, name => if k == name then some v else dictGet t name

/-- `self.data[k] = v`: replace in place when the key exists, append
otherwise (Python dicts keep the original insertion position on update). -/
def dictSet : Book → String → PyRecord → Book
  | [], k, v => [(k, v)]
  | (k', v') :: t, k, v => if k' == k then (k, v) :: t else (k', v') :: dictSet t k v

/-- `del self.data[k]`. -/
def dictDel : Book → String → Book
  | [], _ => []
  | (k', v') :: t, k => if k' == k then t else (k', v') :: dictDel t k

/-- `AddressBook.add_record`: keyed by `str(record.name)`. -/
def add_record (book : Book) (r : PyRecord) : String × Book :=
  ("Contact " ++ strOfName r.name ++ " added to address book",
   dictSet book (strOfName r.name) r)

/-- `AddressBook.delete`. -/
def bookDelete (book : Book) (name : String) : String × Book :=
  if (dictGet book name).isSome then ("Contact " ++ name ++ " deleted", dictDel book name)
  else ("Contact " ++ name ++ " not found", book)

/-- Python truthiness of a stored birthday attribute (`if contact.birthday:`):
an empty string is falsy, any other string and any object are truthy. -/
def birthdayTruthy : BirthdayVal → Bool
  | .str s => !(s == "")
  | .wrapped _ => true

/-- `str()` of a stored birthday attribute. -/
def birthdayValStr : BirthdayVal → String
  | .str s => s
  | .wrapped d => fieldStrOfDate d

/-- `str()` of the optional birthday attribute (`str(None) = "None"`). -/
def pyStrOfBirthdayField : Option BirthdayVal → String
  | none => "None"
  | some bv => birthdayValStr bv

/-- `'; '.join` and friends. -/
def joinSep (sep : String) : List String → String
  | [] => ""
  | [x] => x
  | x :: xs => x ++ sep ++ joinSep sep xs

/-- `Record.__str__`. -/
def recordStr (r : PyRecord) : String :=
  let phones := joinSep "; " r.phones
  let bstr := match r.birthday with
    | some bv => if birthdayTruthy bv then ", birthday: " ++ birthdayValStr bv else ""
    | none => ""
  "Contact name: " ++ strOfName r.name ++ ", phones: " ++ phones ++ bstr

/-- `Record.edit_phone`: linear scan for the first stored phone whose
`.value` equals `old_phone`; on a match the replacement `Phone(new_phone)`
is constructed (and may raise) before the assignment; no match falls through
to the "not found" message.  The returned list is the final state of
`self.phones` (unchanged when an error is raised). -/
def edit_phone : List String → String → String → Except PyErr String × List String
  | [], old, _ => (.ok ("Phone " ++ old ++ " not found"), [])
  | p :: ps, old, newP =>
    if p == old then
      match phoneInit newP with
      | .ok np => (.ok ("Phone " ++ old ++ " changed to " ++ newP), np :: ps)
      | .error e => (.error e, p :: ps)
    else
      let r := edit_phone ps old newP
      (r.1, p :: r.2)

/-! ## Record.find_phone: an identity-aware model

`Phone` does not define `__eq__`, so `==` between two `Phone` objects is
reference identity.  The value-level book model erases identity, so
`find_phone` gets its own model in which each object carries an identity. -/

/-- A `Phone` object: identity plus digit-string value. -/
structure PhoneObj where
  objId : Nat
  value : String
deriving Repr, DecidableEq

/-- Python `==` between two `Field` objects (default identity semantics). -/
def pyIs (a b : PhoneObj) : Bool := a.objId == b.objId

/-- The loop of `Record.find_phone`: `if p == phone: return p` and the dead
`elif p not in self.phones: return "… not found"` branch (the membership also
tests identity, against the whole list). -/
def findPhoneGo (allPhones : List PhoneObj) (phone : PhoneObj) :
    List PhoneObj → Option (PhoneObj ⊕ String)
  | [] => none
  | p :: rest =>
    if pyIs p phone then some (.inl p)
    else if !(allPhones.any (fun q => pyIs q p)) then
      some (.inr ("Phone " ++ phone.value ++ " not found"))
    else findPhoneGo allPhones phone rest

/-- `Record.find_phone`: falls off the end (returning Python `None`) when no
branch fires. -/
def find_phone (phones : List PhoneObj) (phone : PhoneObj) : Option (PhoneObj ⊕ String) :=
  findPhoneGo phones phone phones

/-! ## get_upcoming_birthdays -/

/-- The body of the `for contact in self.data.values()` loop of
`get_upcoming_birthdays` for one contact, with `today` made explicit:
re-parse the stored birthday with `strptime`, move it to this year (next
year when already passed), keep it when at most 7 days away, shifting
Saturday +2 and Sunday +1.  Errors raised inside the loop propagate. -/
def processContact (today : PyDate) (r : PyRecord) : Except PyErr (Option (NameVal × String)) :=
  match r.birthday with
  | none => .ok none
  | some bv =>
    if birthdayTruthy bv then
      match pyStrptimeDMY bv with
      | .error e => .error e
      | .ok b =>
        match replaceYear b today.year with
        | .error e => .error e
        | .ok btyFirst =>
          match (if pyDateLt btyFirst today then replaceYear b (today.year + 1)
                 else .ok btyFirst) with
          | .error e => .error e
          | .ok bty =>
            let days : Int := (toOrdinal bty : Int) - (toOrdinal today : Int)
            if 0 ≤ days ∧ days ≤ 7 then
              let adj := if weekday bty == 5 then addDays bty 2
                         else if weekday bty == 6 then addDays bty 1 else bty
              .ok (some (r.name, pyStrftimeDMY adj))
            else .ok none
    else .ok none

/-- The loop of `get_upcoming_birthdays`, accumulating `congrats_list`;
the first raised error aborts the whole call. -/
def collectBirthdays (today : PyDate) : List PyRecord → Except PyErr (List (NameVal × String))
  | [] => .ok []
  | r :: rs =>
    match processContact today r with
    | .error e => .error e
    | .ok o =>
      match collectBirthdays today rs with
      | .error e => .error e
      | .ok rest => .ok (match o with | some p => p :: rest | none => rest)

/-- `AddressBook.get_upcoming_birthdays` with `datetime.now().date()` made an
explicit `today` parameter: returns the list when non-empty, Python `None`
otherwise; each entry is the one-pair dict `{contact.name: date_string}`,
modelled as the pair. -/
def get_upcoming_birthdays (book : Book) (today : PyDate) :
    Except PyErr (Option (List (NameVal × String))) :=
  match collectBirthdays today (book.map Prod.snd) with
  | .error e => .error e
  | .ok l => .ok (if l.isEmpty then none else some l)

/-! ## Colors, the decorator, the command handlers and the loop step -/

def foreGreen : String := "\x1b[32m"
def foreRed : String := "\x1b[31m"
def foreYellow : String := "\x1b[33m"
def foreReset : String := "\x1b[39m"

def colored_output (s : String) : String := foreGreen ++ s ++ foreReset
def colored_error (s : String) : String := foreRed ++ s ++ foreReset
def colored_info (s : String) : String := foreYellow ++ s ++ foreReset

/-- The `input_error` decorator collapsed onto a handler result: `KeyError`,
`ValueError` and `IndexError` are returned (and later printed via `str()`;
`str(KeyError(m))` is the repr of its argument), anything else becomes the
generic "unexpected error" message.  An `.ok` value passes through. -/
def input_error : Except PyErr String → String
  | .ok s => s
  | .error (.keyError m) => "\x27" ++ m ++ "\x27"
  | .error (.valueError m) => m
  | .error (.indexError m) => m
  | .error (.typeError m) => "An unexpected error occurred: " ++ m ++ ". Please try again."

/-- `add_contact`: unpack `name, phone = args` (raising `ValueError` on a
wrong count), insert a fresh empty record when the name is new, then — only
if `phone` is truthy — validate and append the phone.  The record insertion
precedes the phone validation, so the book stays mutated when validation
raises. -/
def add_contact (args : List String) (book : Book) : Except PyErr String × Book :=
  match args with
  | [name, phone] =>
    match dictGet book name with
    | none =>
      let r0 : PyRecord := ⟨.raw name, [], none⟩
      let book1 := (add_record book r0).2
      let message := colored_output ("Contact " ++ name ++ " added to address book.")
      if phone == "" then (.ok message, book1)
      else
        match phoneInit phone with
        | .ok p => (.ok message, dictSet book1 name ⟨.raw name, [p], none⟩)
        | .error e => (.error e, book1)
    | some r =>
      let message := colored_output ("Contact " ++ strOfName r.name ++ " updated.")
      if phone == "" then (.ok message, book)
      else
        match phoneInit phone with
        | .ok p => (.ok message, dictSet book name ⟨r.name, r.phones ++ [p], r.birthday⟩)
        | .error e => (.error e, book)
  | _ => (.error (.valueError "not enough values to unpack (expected 2)"), book)

/-- `change_contact`. -/
def change_contact (args : List String) (book : Book) : Except PyErr String × Book :=
  match args with
  | [name, oldPhone, newPhone] =>
    match dictGet book name with
    | none =>
      (.error (.indexError (colored_error
        ("Contact \x27" ++ name ++ "\x27 not found. Use \x27add\x27 to create it."))), book)
    | some r =>
      let res := edit_phone r.phones oldPhone newPhone
      match res.1 with
      | .ok msg => (.ok (colored_output msg), dictSet book name ⟨r.name, res.2, r.birthday⟩)
      | .error e => (.error e, book)
  | _ => (.error (.valueError "not enough values to unpack (expected 3)"), book)

/-- `show_phone`. -/
def show_phone (args : List String) (book : Book) : Except PyErr String × Book :=
  match args with
  | [] => (.error (.valueError (colored_error "No contact name provided.")), book)
  | name :: _ =>
    match dictGet book name with
    | some r =>
      (.ok (colored_output ("Contact \x27" ++ name ++ "\x27 phones: " ++ joinSep "; " r.phones)),
       book)
    | none =>
      (.error (.indexError (colored_error ("Contact \x27" ++ name ++ "\x27 not found."))), book)

/-- `show_all`. -/
def show_all (book : Book) : Except PyErr String × Book :=
  if book.isEmpty then (.error (.valueError (colored_error "No contacts available.")), book)
  else (.ok (colored_output (joinSep "\n" (book.map (fun kv => recordStr kv.2)))), book)

/-- The `add_birthday` command handler: passes the raw argument string to
`Record.add_birthday`, which stores it verbatim — no `Birthday` wrapper is
ever constructed on this path. -/
def add_birthday_cmd (args : List String) (book : Book) : Except PyErr String × Book :=
  match args with
  | [name, birthday] =>
    match dictGet book name with
    | none =>
      (.error (.indexError (colored_error
        ("Contact \x27" ++ name ++ "\x27 not found. Use \x27add\x27 to create it."))), book)
    | some r =>
      (.ok (colored_output (strOfName r.name ++ "\x27s birthday on " ++ birthday ++ " added")),
       dictSet book name ⟨r.name, r.phones, some (.str birthday)⟩)
  | _ => (.error (.valueError "not enough values to unpack (expected 2)"), book)

/-- `show_birthday` (`name, *_ = args` raises `ValueError` on empty args). -/
def show_birthday (args : List String) (book : Book) : Except PyErr String × Book :=
  match args with
  | [] => (.error (.valueError "not enough values to unpack (expected at least 1, got 0)"), book)
  | name :: _ =>
    match dictGet book name with
    | none =>
      (.error (.indexError (colored_error
        ("Contact \x27" ++ name ++ "\x27 not found. Use \x27add\x27 to create it."))), book)
    | some r =>
      (.ok (colored_output
        (strOfName r.name ++ " has Birthday on " ++ pyStrOfBirthdayField r.birthday)), book)

/-- One line of `show_all_birthdays`' output. -/
def formatBirthdayLine (p : NameVal × String) : String := strOfName p.1 ++ ": " ++ p.2

/-- `show_all_birthdays` (with `today` explicit): errors raised inside
`get_upcoming_birthdays` propagate to the decorator. -/
def show_all_birthdays (book : Book) (today : PyDate) : Except PyErr String × Book :=
  if book.isEmpty then (.error (.valueError (colored_error "No contacts available.")), book)
  else
    match get_upcoming_birthdays book today with
    | .error e => (.error e, book)
    | .ok none => (.ok (colored_output "No birthdays soon."), book)
    | .ok (some l) => (.ok (colored_output (joinSep "\n" (l.map formatBirthdayLine))), book)

/-- `show_info`. -/
def show_info : String :=
  colored_info ("Available commands:\n" ++ joinSep "\n" [
    colored_output "add <name> <phone>" ++ ": adds a new contact with the name and phone number, or adds a phone number to an existing contact (e.g., add John 123456789)",
    colored_output "change <name> <old phone> <new phone>" ++ ": changes the phone number of an existing contact (e.g., change John 123456789 987654321)",
    colored_output "phone <name>" ++ ": shows the phone number(s) of the specified contact (e.g., phone John)",
    colored_output "all" ++ ": shows all contacts in your address book",
    colored_output "add-birthday <name> <birthday>" ++ ": adds a birthday for the specified contact (e.g., add-birthday John 01.01.1990)",
    colored_output "show-birthday <name>" ++ ": shows the birthday of the specified contact (e.g., show-birthday John)",
    colored_output "birthdays" ++ ": shows upcoming birthdays within the next week",
    colored_output "hello" ++ ": receive a greeting from the bot",
    colored_output "info" ++ ": displays the list of available commands",
    colored_output "close or exit" ++ ": exits the application"])

/-- ASCII whitespace, the model of the separators of Python `str.split()`. -/
def pyIsSpace (c : Char) : Bool :=
  c == ' ' || c == '\t' || c == '\n' || c == '\r' || c == '\x0b' || c == '\x0c'

/-- Accumulating splitter over the character list (kept fully structural so
that closed instances reduce in the kernel). -/
def splitWsAux : List Char → List Char → List String
  | [], acc => if acc.isEmpty then [] else [⟨acc.reverse⟩]
  | c :: cs, acc =>
    if pyIsSpace c then
      (if acc.isEmpty then splitWsAux cs [] else ⟨acc.reverse⟩ :: splitWsAux cs [])
    else splitWsAux cs (c :: acc)

/-- Python `str.split()`: split on whitespace runs, no empty tokens. -/
def pySplitWs (s : String) : List String := splitWsAux s.data []

/-- ASCII lowercasing of one character (`str.lower()` restricted to the
ASCII range the command words live in). -/
def charLower (c : Char) : Char :=
  if c.toNat ≥ 65 ∧ c.toNat ≤ 90 then Char.ofNat (c.toNat + 32) else c

/-- `str.lower()` over the token. -/
def pyToLower (s : String) : String := ⟨s.data.map charLower⟩

/-- `parse_input`: `(None, [])` on blank input, otherwise the lowercased
first token and the remaining tokens. -/
def parse_input (s : String) : Option String × List String :=
  match pySplitWs s with
  | [] => (none, [])
  | c :: rest => (some (pyToLower c), rest)

/-- The decorated call of a handler inside `main`: the handler's mutation of
the book persists, its error channel is collapsed by `input_error`. -/
def runDecorated (f : List String → Book → Except PyErr String × Book)
    (args : List String) (book : Book) : String × Book :=
  ((input_error (f args book).1), (f args book).2)

/-- The outcome of one iteration of the `while True` loop in `main`:
either the loop breaks (after saving) or it prints one message and
continues with the possibly-updated book. -/
inductive StepResult where
  | halt (book : Book)
  | next (output : String) (book : Book)
deriving Repr

/-- One iteration of `main`'s loop on input `inputLine`, the if/elif chain
of the source (persistence is external to the core: `save_data` on exit does
not change the book). -/
def mainStep (today : PyDate) (book : Book) (inputLine : String) : StepResult :=
  let command := (parse_input inputLine).1
  let args := (parse_input inputLine).2
  if command = some "close" ∨ command = some "exit" then .halt book
  else if command = some "hello" then
    .next (colored_info ("How can I help you?" ++ foreReset)) book
  else if command = some "info" then .next show_info book
  else if command = some "add" then
    .next (runDecorated add_contact args book).1 (runDecorated add_contact args book).2
  else if command = some "change" then
    .next (runDecorated change_contact args book).1 (runDecorated change_contact args book).2
  else if command = some "phone" then
    .next (runDecorated show_phone args book).1 (runDecorated show_phone args book).2
  else if command = some "all" then
    .next (runDecorated (fun _ bk => show_all bk) args book).1
          (runDecorated (fun _ bk => show_all bk) args book).2
  else if command = some "add-birthday" then
    .next (runDecorated add_birthday_cmd args book).1 (runDecorated add_birthday_cmd args book).2
  else if command = some "show-birthday" then
    .next (runDecorated show_birthday args book).1 (runDecorated show_birthday args book).2
  else if command = some "birthdays" then
    .next (runDecorated (fun _ bk => show_all_birthdays bk today) args book).1
          (runDecorated (fun _ bk => show_all_birthdays bk today) args book).2
  else .next (colored_error "Invalid command.") book

/-- Does this loop outcome terminate the process? -/
def stepHalts : StepResult → Bool
  | .halt _ => true
  | .next _ _ => false

/-! ## Spec-side definitions (written from the spec's words, for the
refinement claims) -/

/-- Spec: the string consists of exactly ten decimal digits (the literal
reading of the phone-number claim). -/
def specExactlyTenDigits (s : String) : Prop :=
  s.data.length = 10 ∧ ∀ c ∈ s.data, isDig c = true

/-- Spec, amended: ten decimal digits optionally followed by one trailing
newline — the set the CPython regex `^\d{10}\x24` actually accepts. -/
def specTenDigitsNl (s : String) : Prop :=
  ∃ t : List Char, (s.data = t ∨ s.data = t ++ ['\n']) ∧
    t.length = 10 ∧ ∀ c ∈ t, isDig c = true

/-- Spec: the date denoted by a string strictly matching `DD.MM.YYYY`
(two-digit day and month, four-digit year, dots in between). -/
def specDMY? (s : String) : Option PyDate :=
  match s.data with
  | [d1, d2, '.', m1, m2, '.', y1, y2, y3, y4] =>
    if isDig d1 && isDig d2 && isDig m1 && isDig m2 &&
       isDig y1 && isDig y2 && isDig y3 && isDig y4 then
      some ⟨1000 * charVal y1 + 100 * charVal y2 + 10 * charVal y3 + charVal y4,
            10 * charVal m1 + charVal m2,
            10 * charVal d1 + charVal d2⟩
    else none
  | _ => none

/-- Spec: the date a stored birthday denotes, when it is a string that
parses under `%d.%m.%Y` (the contacts the claim's amendment ranges over). -/
def birthdayDateOf (r : PyRecord) : Option PyDate :=
  match r.birthday with
  | none => none
  | some bv => match pyStrptimeDMY bv with | .ok b => some b | .error _ => none

/-- Spec: "the next occurrence of that month/day on or after today (if this
year's occurrence already passed, use next year's)". -/
def specNextOccurrence (b today : PyDate) : PyDate :=
  if pyDateLt ⟨today.year, b.month, b.day⟩ today then ⟨today.year + 1, b.month, b.day⟩
  else ⟨today.year, b.month, b.day⟩

/-- Spec: "if the occurrence falls on a Saturday, shift it forward 2 days;
if Sunday, shift forward 1 day". -/
def weekendShift (d : PyDate) : PyDate :=
  if weekday d == 5 then addDays d 2 else if weekday d == 6 then addDays d 1 else d

/-- Spec: the contribution of one contact to the upcoming-birthday list:
kept exactly when the day count to the next occurrence is in `[0, 7]`,
paired with the weekend-shifted occurrence rendered as `DD.MM.YYYY`. -/
def specProcess (today : PyDate) (r : PyRecord) : Option (NameVal × String) :=
  match birthdayDateOf r with
  | none => none
  | some b =>
    let occ := specNextOccurrence b today
    let days : Int := (toOrdinal occ : Int) - (toOrdinal today : Int)
    if 0 ≤ days ∧ days ≤ 7 then some (r.name, pyStrftimeDMY (weekendShift occ)) else none

/-- Spec: the upcoming-birthday list over the book's contacts in insertion
order. -/
def specUpcoming (book : Book) (today : PyDate) : List (NameVal × String) :=
  (book.map Prod.snd).filterMap (specProcess today)

/-- The amendment's hypothesis on one contact: a set, truthy birthday is a
string that `strptime`-parses, and its month/day exists in today's year and
— when this year's occurrence has passed — in the next year as well (this
excludes exactly the February-29 contacts on which `date.replace` raises). -/
def contactOk (today : PyDate) (r : PyRecord) : Bool :=
  match r.birthday with
  | none => true
  | some bv =>
    if birthdayTruthy bv then
      match pyStrptimeDMY bv with
      | .error _ => false
      | .ok b =>
        validD today.year b.month b.day &&
        (!(pyDateLt ⟨today.year, b.month, b.day⟩ today) || validD (today.year + 1) b.month b.day)
    else true

/-- Does some contact of the book store a `Birthday` wrapper (a date-like
value) in its birthday attribute? -/
def hasWrappedBirthday (book : Book) : Bool :=
  (book.map Prod.snd).any (fun r =>
    match r.birthday with | some (.wrapped _) => true | _ => false)

/-- The entry-wise address-book invariant: every stored pair's record has a
name rendering equal to its key. -/
def bookEntriesOk (book : Book) : Prop :=
  ∀ p ∈ book, strOfName p.2.name = p.1

/-- The address-book states reachable from the empty book through the
address-book API (`add_record`, `delete`) and the command loop. -/
inductive Reachable : Book → Prop where
  | empty : Reachable []
  | addRec (b : Book) (r : PyRecord) : Reachable b → Reachable (add_record b r).2
  | del (b : Book) (n : String) : Reachable b → Reachable (bookDelete b n).2
  | cmd (b : Book) (today : PyDate) (inp out : String) (b' : Book) :
      Reachable b → mainStep today b inp = .next out b' → Reachable b'

/-! ## Helper lemmas -/

/-- Looking a key up right after storing it under that key. -/
theorem dictGet_dictSet_self (b : Book) (k : String) (v : PyRecord) :
    dictGet (dictSet b k v) k = some v := by
  induction b with
  | nil => simp [dictSet, dictGet]
  | cons p t ih =>
    by_cases h : p.1 == k
    · simp [dictSet, dictGet, h]
    · simpa [dictSet, dictGet, h] using ih

/-- A contact holding a `Birthday` wrapper makes the loop body raise
`TypeError` (the `strptime` re-parse of a non-string). -/
theorem processContact_wrapped (today : PyDate) (r : PyRecord) (d : PyDate)
    (h : r.birthday = some (.wrapped d)) :
    processContact today r =
      .error (.typeError "strptime() argument 1 must be str, not datetime.date") := by
  unfold processContact
  rw [h]
  rfl

/-- If some contact of the list stores a wrapped birthday, the collection
loop raises. -/
theorem collectBirthdays_wrapped_err (today : PyDate) (l : List PyRecord)
    (h : (l.any fun r =>
      match r.birthday with | some (.wrapped _) => true | _ => false) = true) :
    exceptOk (collectBirthdays today l) = false := by
  induction l with
  | nil => simp at h
  | cons r rs ih =>
    rw [List.any_cons, Bool.or_eq_true] at h
    rcases h with h | h
    · rcases hb : r.birthday with _ | bv
      · rw [hb] at h; simp at h
      · rcases bv with s | d
        · rw [hb] at h; simp at h
        · have hp := processContact_wrapped today r d hb
          simp [collectBirthdays, hp, exceptOk]
    · cases hp : processContact today r with
      | error e => simp [collectBirthdays, hp, exceptOk]
      | ok o =>
        have htl := ih h
        cases hc : collectBirthdays today rs with
        | error e => simp [collectBirthdays, hp, hc, exceptOk]
        | ok rest => rw [hc] at htl; simp [exceptOk] at htl

/-- The inner loop of `find_phone` returns `None` when the sought object is
not identical to any scanned entry and every scanned entry occurs in the
full list. -/
theorem findPhoneGo_none (allP : List PhoneObj) (phone : PhoneObj) :
    ∀ rem : List PhoneObj, (∀ p ∈ rem, pyIs p phone = false) →
    (∀ p ∈ rem, allP.any (fun q => pyIs q p) = true) →
    findPhoneGo allP phone rem = none := by
  intro rem
  induction rem with
  | nil => intro _ _; rfl
  | cons p rest ih =>
    intro h1 h2
    have hp1 : pyIs p phone = false := h1 p (List.mem_cons_self p rest)
    have hp2 : allP.any (fun q => pyIs q p) = true := h2 p (List.mem_cons_self p rest)
    simp only [findPhoneGo, hp1, hp2]
    simp only [Bool.not_true, Bool.false_eq_true, if_false]
    exact ih (fun q hq => h1 q (List.mem_cons_of_mem p hq))
      (fun q hq => h2 q (List.mem_cons_of_mem p hq))

/-- `phoneInit` succeeds exactly by returning the input string. -/
theorem phoneInit_ok_of_exceptOk (s : String) (h : exceptOk (phoneInit s) = true) :
    phoneInit s = .ok s := by
  unfold phoneInit at h ⊢
  cases hre : phoneRe s.data
  · rw [hre] at h; simp [exceptOk] at h
  · simp [hre]

/-- `phoneInit` fails exactly with the phone `ValueError`. -/
theorem phoneInit_err_of_not_exceptOk (s : String) (h : exceptOk (phoneInit s) = false) :
    phoneInit s =
      .error (.valueError "Invalid phone number. The number must consist of 10 digits.") := by
  unfold phoneInit at h ⊢
  cases hre : phoneRe s.data
  · simp [hre]
  · rw [hre] at h; simp [exceptOk] at h

/-- `edit_phone` when the sought value is absent: untouched list, "not
found" text, no error. -/
theorem edit_phone_not_found (phones : List String) (old newP : String)
    (h : old ∉ phones) :
    edit_phone phones old newP = (.ok ("Phone " ++ old ++ " not found"), phones) := by
  induction phones with
  | nil => rfl
  | cons p ps ih =>
    have hp : (p == old) = false :=
      beq_eq_false_iff_ne.mpr (fun e => h (e ▸ List.mem_cons_self p ps))
    have hps := ih (fun m => h (List.mem_cons_of_mem p m))
    simp [edit_phone, hp, hps]

/-- `edit_phone` at the first occurrence of `old`: replaces it when the new
phone validates, raises and leaves the list unchanged when it does not. -/
theorem edit_phone_found (old newP : String) :
    ∀ (pre post : List String), old ∉ pre →
    ((exceptOk (phoneInit newP) = true →
       edit_phone (pre ++ old :: post) old newP =
         (.ok ("Phone " ++ old ++ " changed to " ++ newP), pre ++ newP :: post)) ∧
     (exceptOk (phoneInit newP) = false →
       edit_phone (pre ++ old :: post) old newP =
         (.error (.valueError "Invalid phone number. The number must consist of 10 digits."),
          pre ++ old :: post))) := by
  intro pre
  induction pre with
  | nil =>
    intro post _
    constructor
    · intro hok
      have := phoneInit_ok_of_exceptOk newP hok
      simp [edit_phone, this]
    · intro herr
      have := phoneInit_err_of_not_exceptOk newP herr
      simp [edit_phone, this]
  | cons q pre' ih =>
    intro post hq
    have hqo : (q == old) = false :=
      beq_eq_false_iff_ne.mpr (fun e => hq (e ▸ List.mem_cons_self q pre'))
    have := ih post (fun m => hq (List.mem_cons_of_mem q m))
    constructor
    · intro hok
      simp [edit_phone, hqo, this.1 hok]
    · intro herr
      simp [edit_phone, hqo, this.2 herr]

/-- Under the amendment's hypothesis, one loop iteration of
`get_upcoming_birthdays` computes exactly the spec-side contribution of the
contact. -/
theorem processContact_spec (today : PyDate) (r : PyRecord)
    (h : contactOk today r = true) :
    processContact today r = .ok (specProcess today r) := by
  obtain ⟨n, ph, bd⟩ := r
  cases bd with
  | none => rfl
  | some bv =>
    cases bv with
    | wrapped d => simp [contactOk, birthdayTruthy, pyStrptimeDMY] at h
    | str s =>
      by_cases hse : s = ""
      · subst hse; rfl
      · have htr : birthdayTruthy (.str s) = true := by simp [birthdayTruthy, hse]
        simp only [contactOk, htr, if_true] at h
        simp only [processContact, specProcess, birthdayDateOf, specNextOccurrence,
          weekendShift, htr, if_true]
        cases hp : pyStrptimeDMY (.str s) with
        | error e => rw [hp] at h; simp at h
        | ok b =>
          rw [hp] at h
          rw [Bool.and_eq_true] at h
          obtain ⟨hv1, hv2⟩ := h
          have hr1 : replaceYear b today.year = .ok ⟨today.year, b.month, b.day⟩ := by
            simp [replaceYear, hv1]
          dsimp only
          rw [hr1]
          dsimp only
          cases hlt : pyDateLt ⟨today.year, b.month, b.day⟩ today
          · simp only [Bool.false_eq_true, if_false]
            try dsimp only
            exact (apply_ite Except.ok _ _ _).symm
          · rw [hlt] at hv2
            simp only [Bool.not_true, Bool.false_or] at hv2
            have hr2 : replaceYear b (today.year + 1) = .ok ⟨today.year + 1, b.month, b.day⟩ := by
              simp [replaceYear, hv2]
            simp only [if_true, hr2]
            try dsimp only
            exact (apply_ite Except.ok _ _ _).symm

/-- Under the amendment's hypothesis the whole loop equals the spec-side
`filterMap` over the contacts in book order. -/
theorem collectBirthdays_spec (today : PyDate) (l : List PyRecord)
    (h : l.all (contactOk today) = true) :
    collectBirthdays today l = .ok (l.filterMap (specProcess today)) := by
  induction l with
  | nil => rfl
  | cons r rs ih =>
    rw [List.all_cons, Bool.and_eq_true] at h
    have hr := processContact_spec today r h.1
    have hrs := ih h.2
    simp only [collectBirthdays, hr, hrs, List.filterMap_cons]
    cases hsp : specProcess today r <;> simp [hsp]

/-- A lookup hit is a stored entry. -/
theorem dictGet_mem : ∀ (b : Book) (k : String) (v : PyRecord),
    dictGet b k = some v → (k, v) ∈ b := by
  intro b
  induction b with
  | nil => intro k v h; simp [dictGet] at h
  | cons p t ih =>
    intro k v h
    rw [dictGet] at h
    by_cases hk : p.1 == k
    · rw [if_pos hk] at h
      have hk' : p.1 = k := by simpa using hk
      have hv : p.2 = v := by simpa using h
      have hpv : (k, v) = p := by
        rw [← hk', ← hv]
      rw [hpv]
      exact List.mem_cons_self p t
    · rw [if_neg hk] at h
      exact List.mem_cons_of_mem p (ih k v h)

/-- Entries of `dictSet` are the new pair or old entries. -/
theorem mem_dictSet : ∀ (b : Book) (k : String) (v : PyRecord) (p : String × PyRecord),
    p ∈ dictSet b k v → p = (k, v) ∨ p ∈ b := by
  intro b
  induction b with
  | nil => intro k v p h; simp [dictSet] at h; left; exact h
  | cons q t ih =>
    intro k v p h
    rw [dictSet] at h
    by_cases hk : q.1 == k
    · rw [if_pos hk] at h
      rcases List.mem_cons.mp h with h | h
      · left; exact h
      · right; exact List.mem_cons_of_mem q h
    · rw [if_neg hk] at h
      rcases List.mem_cons.mp h with h | h
      · right; rw [h]; exact List.mem_cons_self q t
      · rcases ih k v p h with h | h
        · left; exact h
        · right; exact List.mem_cons_of_mem q h

/-- Entries of `dictDel` are old entries. -/
theorem mem_dictDel : ∀ (b : Book) (k : String) (p : String × PyRecord),
    p ∈ dictDel b k → p ∈ b := by
  intro b
  induction b with
  | nil => intro k p h; simp [dictDel] at h
  | cons q t ih =>
    intro k p h
    rw [dictDel] at h
    by_cases hk : q.1 == k
    · rw [if_pos hk] at h
      exact List.mem_cons_of_mem q h
    · rw [if_neg hk] at h
      rcases List.mem_cons.mp h with h | h
      · rw [h]; exact List.mem_cons_self q t
      · exact List.mem_cons_of_mem q (ih k p h)

/-- `dictSet` with a matching name preserves the entry invariant. -/
theorem entriesOk_dictSet (b : Book) (k : String) (v : PyRecord)
    (h : bookEntriesOk b) (hkv : strOfName v.name = k) :
    bookEntriesOk (dictSet b k v) := by
  intro p hp
  rcases mem_dictSet b k v p hp with rfl | hp
  · exact hkv
  · exact h p hp

theorem entriesOk_add_record (b : Book) (r : PyRecord) (h : bookEntriesOk b) :
    bookEntriesOk (add_record b r).2 :=
  entriesOk_dictSet b (strOfName r.name) r h rfl

theorem entriesOk_bookDelete (b : Book) (n : String) (h : bookEntriesOk b) :
    bookEntriesOk (bookDelete b n).2 := by
  unfold bookDelete
  cases hg : (dictGet b n).isSome
  · simpa [hg] using h
  · simp only [hg, if_true]
    intro p hp
    exact h p (mem_dictDel b n p hp)

theorem entriesOk_add_contact (args : List String) (b : Book) (h : bookEntriesOk b) :
    bookEntriesOk (add_contact args b).2 := by
  rcases args with _ | ⟨name, _ | ⟨phone, _ | ⟨x, rest⟩⟩⟩
  · exact h
  · exact h
  · simp only [add_contact]
    cases hg : dictGet b name with
    | none =>
      have h1 : bookEntriesOk (dictSet b name ⟨.raw name, [], none⟩) :=
        entriesOk_dictSet b name ⟨.raw name, [], none⟩ h rfl
      cases hpe : (phone == "")
      · simp only [Bool.false_eq_true, if_false]
        cases hpi : phoneInit phone
        · exact h1
        · exact entriesOk_dictSet _ name ⟨.raw name, [_], none⟩ h1 rfl
      · simpa using h1
    | some r =>
      have hname : strOfName r.name = name := h (name, r) (dictGet_mem b name r hg)
      cases hpe : (phone == "")
      · simp only [Bool.false_eq_true, if_false]
        cases hpi : phoneInit phone
        · exact h
        · exact entriesOk_dictSet _ name ⟨r.name, r.phones ++ [_], r.birthday⟩ h hname
      · simpa using h
  · exact h

theorem entriesOk_change_contact (args : List String) (b : Book) (h : bookEntriesOk b) :
    bookEntriesOk (change_contact args b).2 := by
  rcases args with _ | ⟨name, _ | ⟨oldP, _ | ⟨newP, _ | ⟨x, rest⟩⟩⟩⟩
  · exact h
  · exact h
  · exact h
  · simp only [change_contact]
    cases hg : dictGet b name with
    | none => exact h
    | some r =>
      dsimp only
      have hname : strOfName r.name = name := h (name, r) (dictGet_mem b name r hg)
      cases hres : (edit_phone r.phones oldP newP).1
      · exact h
      · exact entriesOk_dictSet _ name ⟨r.name, _, r.birthday⟩ h hname
  · exact h

theorem entriesOk_add_birthday_cmd (args : List String) (b : Book) (h : bookEntriesOk b) :
    bookEntriesOk (add_birthday_cmd args b).2 := by
  rcases args with _ | ⟨name, _ | ⟨bday, _ | ⟨x, rest⟩⟩⟩
  · exact h
  · exact h
  · simp only [add_birthday_cmd]
    cases hg : dictGet b name with
    | none => exact h
    | some r =>
      have hname : strOfName r.name = name := h (name, r) (dictGet_mem b name r hg)
      exact entriesOk_dictSet _ name ⟨r.name, r.phones, some (.str bday)⟩ h hname
  · exact h

/-- The read-only handlers return the book unchanged. -/
theorem show_phone_book (args : List String) (b : Book) : (show_phone args b).2 = b := by
  rcases args with _ | ⟨n, rest⟩
  · rfl
  · simp only [show_phone]
    cases dictGet b n <;> rfl

theorem show_all_book (b : Book) : (show_all b).2 = b := by
  unfold show_all
  cases b.isEmpty <;> rfl

theorem show_birthday_book (args : List String) (b : Book) : (show_birthday args b).2 = b := by
  rcases args with _ | ⟨n, rest⟩
  · rfl
  · simp only [show_birthday]
    cases dictGet b n <;> rfl

theorem show_all_birthdays_book (b : Book) (today : PyDate) :
    (show_all_birthdays b today).2 = b := by
  unfold show_all_birthdays
  cases b.isEmpty
  · simp only [Bool.false_eq_true, if_false]
    cases get_upcoming_birthdays b today with
    | error e => rfl
    | ok o => cases o <;> rfl
  · rfl

theorem runDecorated_book (f : List String → Book → Except PyErr String × Book)
    (args : List String) (b : Book) : (runDecorated f args b).2 = (f args b).2 := rfl

/-- One loop step preserves the entry invariant. -/
theorem entriesOk_mainStep (today : PyDate) (b : Book) (inp out : String) (b' : Book)
    (h : mainStep today b inp = .next out b') (hb : bookEntriesOk b) :
    bookEntriesOk b' := by
  simp only [mainStep] at h
  split at h
  · cases h
  all_goals split at h
  all_goals try split at h
  all_goals try split at h
  all_goals try split at h
  all_goals try split at h
  all_goals try split at h
  all_goals try split at h
  all_goals try split at h
  all_goals try split at h
  all_goals cases h
  all_goals first
    | exact hb
    | (rw [runDecorated_book]; exact entriesOk_add_contact _ _ hb)
    | (rw [runDecorated_book]; exact entriesOk_change_contact _ _ hb)
    | (rw [runDecorated_book]; exact entriesOk_add_birthday_cmd _ _ hb)
    | (rw [runDecorated_book, show_phone_book]; exact hb)
    | (rw [runDecorated_book, show_all_book]; exact hb)
    | (rw [runDecorated_book, show_birthday_book]; exact hb)
    | (rw [runDecorated_book, show_all_birthdays_book]; exact hb)

/-- Every reachable book satisfies the entry invariant. -/
theorem reachable_entriesOk (b : Book) (h : Reachable b) : bookEntriesOk b := by
  induction h with
  | empty => intro p hp; simp at hp
  | addRec b r _ ih => exact entriesOk_add_record b r ih
  | del b n _ ih => exact entriesOk_bookDelete b n ih
  | cmd b today inp out b' _ hstep ih => exact entriesOk_mainStep today b inp out b' hstep ih

/-- A character accepted by `isDig` is one of the ten digit characters. -/
theorem isDig_cases (c : Char) (h : isDig c = true) :
    c = '0' ∨ c = '1' ∨ c = '2' ∨ c = '3' ∨ c = '4' ∨
    c = '5' ∨ c = '6' ∨ c = '7' ∨ c = '8' ∨ c = '9' := by
  simp only [isDig, Bool.or_eq_true, beq_iff_eq] at h
  tauto

theorem isDig_ne_dot (c : Char) (h : isDig c = true) : ¬ c = '.' := by
  rcases isDig_cases c h with rfl | rfl | rfl | rfl | rfl | rfl | rfl | rfl | rfl | rfl <;> decide

theorem digitCharN_ne_dot (k : Nat) (h : k < 10) : ¬ digitCharN k = '.' := by
  interval_cases k <;> decide

theorem daysInMonth_le_31 (y m : Nat) : daysInMonth y m ≤ 31 := by
  unfold daysInMonth
  split
  · split <;> omega
  · split <;> omega

/-- The two-character day alternation accepts every in-range two-digit
rendering and returns its value. -/
theorem dayAlt2_eq (c1 c2 : Char) (h1 : isDig c1 = true) (h2 : isDig c2 = true)
    (hlo : 1 ≤ 10 * charVal c1 + charVal c2) (hhi : 10 * charVal c1 + charVal c2 ≤ 31) :
    dayAlt2 c1 c2 = some (10 * charVal c1 + charVal c2) := by
  rcases isDig_cases c1 h1 with rfl | rfl | rfl | rfl | rfl | rfl | rfl | rfl | rfl | rfl <;>
    rcases isDig_cases c2 h2 with rfl | rfl | rfl | rfl | rfl | rfl | rfl | rfl | rfl | rfl <;>
    revert hlo hhi <;> decide

/-- The two-character month alternation accepts every in-range two-digit
rendering and returns its value. -/
theorem monthAlt2_eq (c1 c2 : Char) (h1 : isDig c1 = true) (h2 : isDig c2 = true)
    (hlo : 1 ≤ 10 * charVal c1 + charVal c2) (hhi : 10 * charVal c1 + charVal c2 ≤ 12) :
    monthAlt2 c1 c2 = some (10 * charVal c1 + charVal c2) := by
  rcases isDig_cases c1 h1 with rfl | rfl | rfl | rfl | rfl | rfl | rfl | rfl | rfl | rfl <;>
    rcases isDig_cases c2 h2 with rfl | rfl | rfl | rfl | rfl | rfl | rfl | rfl | rfl | rfl <;>
    revert hlo hhi <;> decide

/-- Whenever the two-character day alternation accepts two digits it returns
their two-digit value. -/
theorem dayAlt2_some (c1 c2 : Char) (v : Nat) (h1 : isDig c1 = true) (h2 : isDig c2 = true)
    (h : dayAlt2 c1 c2 = some v) : v = 10 * charVal c1 + charVal c2 := by
  rcases isDig_cases c1 h1 with rfl | rfl | rfl | rfl | rfl | rfl | rfl | rfl | rfl | rfl <;>
    rcases isDig_cases c2 h2 with rfl | rfl | rfl | rfl | rfl | rfl | rfl | rfl | rfl | rfl <;>
    simp_all [dayAlt2, charVal]

theorem monthAlt2_some (c1 c2 : Char) (v : Nat) (h1 : isDig c1 = true) (h2 : isDig c2 = true)
    (h : monthAlt2 c1 c2 = some v) : v = 10 * charVal c1 + charVal c2 := by
  rcases isDig_cases c1 h1 with rfl | rfl | rfl | rfl | rfl | rfl | rfl | rfl | rfl | rfl <;>
    rcases isDig_cases c2 h2 with rfl | rfl | rfl | rfl | rfl | rfl | rfl | rfl | rfl | rfl <;>
    simp_all [monthAlt2, charVal]

theorem parseYearEnd_digits (a b c d : Char) (h1 : isDig a = true) (h2 : isDig b = true)
    (h3 : isDig c = true) (h4 : isDig d = true) :
    parseYearEnd [a, b, c, d] =
      some (1000 * charVal a + 100 * charVal b + 10 * charVal c + charVal d) := by
  simp [parseYearEnd, h1, h2, h3, h4]

theorem parseYearEnd_five (a b c d e : Char) : parseYearEnd [a, b, c, d, e] = none := rfl

/-- The one-character day branch never fires when the second character is a
digit (the format needs a dot there). -/
theorem parseDMY2_digit (d1 d2 : Char) (rest : List Char) (h : isDig d2 = true) :
    parseDMY2 (d1 :: d2 :: rest) = none := by
  rcases isDig_cases d2 h with rfl | rfl | rfl | rfl | rfl | rfl | rfl | rfl | rfl | rfl <;> rfl

/-- The one-character month branch never fires when the second character is
a digit. -/
theorem parseMY2_digit (m1 m2 : Char) (rest : List Char) (h : isDig m2 = true) :
    parseMY2 (m1 :: m2 :: rest) = none := by
  rcases isDig_cases m2 h with rfl | rfl | rfl | rfl | rfl | rfl | rfl | rfl | rfl | rfl <;> rfl

/-! ## Claim theorems -/

/-- `Option.orElse` on a present first alternative. -/
theorem orElse_some_left {α : Type} (x : α) (f : Unit → Option α) :
    (some x).orElse f = some x := rfl

/-- `Option.orElse` on an absent first alternative. -/
theorem orElse_none_left {α : Type} (f : Unit → Option α) :
    (none : Option α).orElse f = f () := rfl

/-- Counterexample to C4 as stated: `Birthday("15.06.1990")` constructs
fine, but the field stores the parsed `datetime.date` and `Field.__str__`
renders it as ISO `1990-06-15`, not the original `DD.MM.YYYY` string — the
round-trip fails. -/
theorem C4_renders_iso_not_dmy :
    birthdayInit "15.06.1990" = .ok ⟨1990, 6, 15⟩ ∧
    fieldStrOfDate ⟨1990, 6, 15⟩ = "1990-06-15" ∧
    ¬ fieldStrOfDate ⟨1990, 6, 15⟩ = "15.06.1990" :=
  ⟨rfl, rfl, by decide⟩

/-- C4 amended: for every string strictly matching `DD.MM.YYYY` that
denotes a real Gregorian date, `Birthday` construction succeeds with that
date, but the constructed value renders in ISO `YYYY-MM-DD` form — never
equal to the `DD.MM.YYYY` input; for calendar-invalid dates and for every
string of malformed shape, construction fails. -/
theorem C4_birthday_construction (s : String) :
    (∀ dt : PyDate, specDMY? s = some dt → validD dt.year dt.month dt.day = true →
       birthdayInit s = .ok dt) ∧
    (∀ dt : PyDate, specDMY? s = some dt → validD dt.year dt.month dt.day = false →
       exceptOk (birthdayInit s) = false) ∧
    (specDMY? s = none → exceptOk (birthdayInit s) = false) ∧
    (∀ dt : PyDate, birthdayInit s = .ok dt → ¬ fieldStrOfDate dt = s) := by
  refine ⟨?_, ?_, ?_, ?_⟩
  · intro dt hsp hv
    unfold specDMY? at hsp
    split at hsp
    · rename_i d1 d2 m1 m2 y1 y2 y3 y4 heq
      split at hsp
      · rename_i hds
        simp only [Bool.and_eq_true] at hds
        obtain ⟨⟨⟨⟨⟨⟨⟨hd1, hd2⟩, hm1⟩, hm2⟩, hy1⟩, hy2⟩, hy3⟩, hy4⟩ := hds
        cases hsp
        simp only [validD, decide_eq_true_eq] at hv
        obtain ⟨hvy1, hvy2, hvm1, hvm2, hvd1, hvd2⟩ := hv
        have hvd3 := le_trans hvd2 (daysInMonth_le_31 _ _)
        have hda := dayAlt2_eq d1 d2 hd1 hd2 hvd1 hvd3
        have hma := monthAlt2_eq m1 m2 hm1 hm2 hvm1 hvm2
        have hya := parseYearEnd_digits y1 y2 y3 y4 hy1 hy2 hy3 hy4
        simp only [birthdayInit, pyStrptimeDMY, heq, birthShape, hd1, hd2, hm1, hm2,
          hy1, hy2, hy3, hy4, Bool.and_self, if_true, parseDMY, parseDMY1, parseMY,
          parseMY1, hda, hma, hya, orElse_some_left]
        simp only [validD, decide_eq_true_eq]
        rw [if_pos ⟨hvy1, hvy2, hvm1, hvm2, hvd1, hvd2⟩]
      · simp at hsp
    · simp at hsp
  · intro dt hsp hv
    unfold specDMY? at hsp
    split at hsp
    · rename_i d1 d2 m1 m2 y1 y2 y3 y4 heq
      split at hsp
      · rename_i hds
        simp only [Bool.and_eq_true] at hds
        obtain ⟨⟨⟨⟨⟨⟨⟨hd1, hd2⟩, hm1⟩, hm2⟩, hy1⟩, hy2⟩, hy3⟩, hy4⟩ := hds
        cases hsp
        have hya := parseYearEnd_digits y1 y2 y3 y4 hy1 hy2 hy3 hy4
        have hshape : birthShape s.data = true := by
          simp [heq, birthShape, hd1, hd2, hm1, hm2, hy1, hy2, hy3, hy4]
        cases hda : dayAlt2 d1 d2 with
        | none =>
          have hp : parseDMY s.data = none := by
            simp only [heq, parseDMY, parseDMY1, hda, parseDMY2_digit d1 d2 _ hd2]
            rfl
          simp [birthdayInit, pyStrptimeDMY, hshape, hp, exceptOk]
        | some dv =>
          have hdv := dayAlt2_some d1 d2 dv hd1 hd2 hda
          subst hdv
          cases hma : monthAlt2 m1 m2 with
          | none =>
            have hmy : parseMY (m1 :: m2 :: '.' :: [y1, y2, y3, y4]) = none := by
              simp only [parseMY, parseMY1, hma, parseMY2_digit m1 m2 _ hm2]
              rfl
            have hp : parseDMY s.data = none := by
              simp only [heq, parseDMY, parseDMY1, hda, hmy, parseDMY2_digit d1 d2 _ hd2]
              rfl
            simp [birthdayInit, pyStrptimeDMY, hshape, hp, exceptOk]
          | some mv =>
            have hmv := monthAlt2_some m1 m2 mv hm1 hm2 hma
            subst hmv
            have hp : parseDMY s.data =
                some (10 * charVal d1 + charVal d2, 10 * charVal m1 + charVal m2,
                      1000 * charVal y1 + 100 * charVal y2 + 10 * charVal y3 + charVal y4) := by
              simp only [heq, parseDMY, parseDMY1, parseMY, parseMY1, hda, hma, hya,
                orElse_some_left]
            simp [birthdayInit, pyStrptimeDMY, hshape, hp, hv, exceptOk]
      · simp at hsp
    · simp at hsp
  · intro hsp
    unfold birthdayInit
    cases hbs : birthShape s.data
    · simp [exceptOk]
    · have hbs' := hbs
      unfold birthShape at hbs'
      split at hbs'
      · rename_i d1 d2 m1 m2 y1 y2 y3 y4 heq
        simp only [Bool.and_eq_true] at hbs'
        obtain ⟨⟨⟨⟨⟨⟨⟨hd1, hd2⟩, hm1⟩, hm2⟩, hy1⟩, hy2⟩, hy3⟩, hy4⟩ := hbs'
        unfold specDMY? at hsp
        rw [heq] at hsp
        simp [hd1, hd2, hm1, hm2, hy1, hy2, hy3, hy4] at hsp
      · rename_i d1 d2 m1 m2 y1 y2 y3 y4 heq
        simp only [Bool.and_eq_true] at hbs'
        obtain ⟨⟨⟨⟨⟨⟨⟨hd1, hd2⟩, hm1⟩, hm2⟩, hy1⟩, hy2⟩, hy3⟩, hy4⟩ := hbs'
        have hmy : parseMY (m1 :: m2 :: '.' :: [y1, y2, y3, y4, '\n']) = none := by
          cases hma : monthAlt2 m1 m2 <;>
            simp only [parseMY, parseMY1, hma, parseYearEnd_five,
              parseMY2_digit m1 m2 _ hm2] <;> rfl
        have hp : parseDMY s.data = none := by
          cases hda : dayAlt2 d1 d2 <;>
            simp only [heq, parseDMY, parseDMY1, hda, hmy,
              parseDMY2_digit d1 d2 _ hd2] <;> rfl
        simp [pyStrptimeDMY, hp, exceptOk]
      · simp at hbs'
  · intro dt hok heqs
    have hbs : birthShape s.data = true := by
      unfold birthdayInit at hok
      cases hb : birthShape s.data
      · rw [hb] at hok; simp at hok
      · rfl
    unfold birthShape at hbs
    split at hbs
    · rename_i d1 d2 m1 m2 y1 y2 y3 y4 heq
      have hdata : (fieldStrOfDate dt).data = s.data := by rw [heqs]
      rw [heq] at hdata
      simp only [fieldStrOfDate, pad4, pad2, List.cons_append, List.nil_append,
        List.cons.injEq] at hdata
      exact absurd hdata.2.2.1 (digitCharN_ne_dot _ (Nat.mod_lt _ (by norm_num)))
    · rename_i d1 d2 m1 m2 y1 y2 y3 y4 heq
      have hlen : (fieldStrOfDate dt).data.length = s.data.length := by rw [heqs]
      rw [heq] at hlen
      simp [fieldStrOfDate, pad4, pad2] at hlen
    · simp at hbs

/-- Witness for C4: `15.06.1990` denotes the valid date 1990-06-15, and
construction succeeds with exactly that date. -/
theorem C4_birthday_construction_witness :
    specDMY? "15.06.1990" = some ⟨1990, 6, 15⟩ ∧
    validD 1990 6 15 = true ∧
    birthdayInit "15.06.1990" = .ok ⟨1990, 6, 15⟩ :=
  ⟨rfl, rfl, (C4_birthday_construction "15.06.1990").1 ⟨1990, 6, 15⟩ rfl rfl⟩

/-- C7: a loop iteration terminates the process exactly when the first
token lowercases to `close` or `exit`; for every other input — any command
with any argument list against any book — the decorated handlers convert
every raised error into a returned message and the loop continues (`PyErr`
enumerates everything these handlers can raise, and `input_error` handles
all of it).  Confirmed. -/
theorem C7_loop_halts_only_close_exit (today : PyDate) (book : Book) (inputLine : String) :
    stepHalts (mainStep today book inputLine) = true ↔
      ((parse_input inputLine).1 = some "close" ∨
       (parse_input inputLine).1 = some "exit") := by
  simp only [mainStep]
  by_cases hce : ((parse_input inputLine).1 = some "close" ∨
      (parse_input inputLine).1 = some "exit")
  · rw [if_pos hce]
    simpa [stepHalts] using hce
  · rw [if_neg hce]
    constructor
    · intro hh
      exfalso
      split at hh
      all_goals try split at hh
      all_goals try split at hh
      all_goals try split at hh
      all_goals try split at hh
      all_goals try split at hh
      all_goals try split at hh
      all_goals try split at hh
      all_goals try split at hh
      all_goals simp [stepHalts] at hh
    · intro hr
      exact absurd hr hce

/-- C8: in every reachable address-book state — any sequence of
`add_record`, `delete` and command-loop steps from the empty book — every
stored record's name renders to its own key.  Confirmed. -/
theorem C8_name_matches_key (b : Book) (hr : Reachable b) (k : String) (r : PyRecord)
    (h : dictGet b k = some r) : strOfName r.name = k :=
  reachable_entriesOk b hr (k, r) (dictGet_mem b k r h)

/-- Witness for C8: the book reached by the command `add John 0123456789`
from the empty book stores under key `"John"` a record whose name renders
to `"John"`. -/
theorem C8_name_matches_key_witness :
    dictGet [("John", ⟨.raw "John", ["0123456789"], none⟩)] "John" =
      some ⟨.raw "John", ["0123456789"], none⟩ ∧
    strOfName (NameVal.raw "John") = "John" :=
  ⟨rfl,
   C8_name_matches_key [("John", ⟨.raw "John", ["0123456789"], none⟩)]
     (Reachable.cmd [] ⟨2024, 6, 10⟩ "add John 0123456789"
       (colored_output "Contact John added to address book.")
       [("John", ⟨.raw "John", ["0123456789"], none⟩)] Reachable.empty (by rfl))
     "John" ⟨.raw "John", ["0123456789"], none⟩ rfl⟩

/-- Counterexample to C1 as stated: a contact with the perfectly valid
birthday `29.02.2020` makes `get_upcoming_birthdays` raise instead of
returning a result — `birthday.replace(year=2025)` does not exist, so the
code never reaches the window test for this contact (the claim prescribes a
returned list for every book and every today). -/
theorem C1_feb29_crashes :
    get_upcoming_birthdays [("Leap", ⟨.raw "Leap", [], some (.str "29.02.2020")⟩)]
        ⟨2024, 6, 10⟩ =
      .error (.valueError "day is out of range for month") := rfl

/-- C1 amended: provided every contact's set (truthy) birthday is a string
that parses under `%d.%m.%Y` and its month/day exists in today's year — and,
when this year's occurrence has passed, in the next year (this excludes
February-29 birthdays hitting a non-leap year, on which the code raises) —
`get_upcoming_birthdays` returns exactly the contacts whose next occurrence
of the birthday's month/day on or after today is 0 to 7 days away, paired
with that occurrence shifted +2 days on a Saturday and +1 on a Sunday, in
book order (`None` when the list is empty). -/
theorem C1_upcoming_birthdays (book : Book) (today : PyDate)
    (h : ((book.map Prod.snd).all (contactOk today)) = true) :
    get_upcoming_birthdays book today =
      .ok (if (specUpcoming book today).isEmpty then none
           else some (specUpcoming book today)) := by
  unfold get_upcoming_birthdays specUpcoming
  rw [collectBirthdays_spec today _ h]

/-- Witness for C1, the spec's own example: today = 10.06.2024 and a contact
with birthday `15.06.1990` (a Saturday in 2024) is returned with the
adjusted date `17.06.2024`. -/
theorem C1_upcoming_birthdays_witness :
    ((([("John", ⟨.raw "John", [], some (.str "15.06.1990")⟩)] : Book).map Prod.snd).all
      (contactOk ⟨2024, 6, 10⟩)) = true ∧
    get_upcoming_birthdays [("John", ⟨.raw "John", [], some (.str "15.06.1990")⟩)]
        ⟨2024, 6, 10⟩ =
      .ok (some [(.raw "John", "17.06.2024")]) := by
  constructor
  · rfl
  · rw [C1_upcoming_birthdays [("John", ⟨.raw "John", [], some (.str "15.06.1990")⟩)]
      ⟨2024, 6, 10⟩ rfl]
    rfl

/-- C2: for every address book containing a contact whose stored birthday
field is a `Birthday` wrapper holding a date-like value, as the data model
prescribes, `get_upcoming_birthdays` fails at run time: the loop re-parses
the stored field with `strptime`, which raises `TypeError` on a non-string.
Confirmed. -/
theorem C2_wrapped_birthday_crashes (book : Book) (today : PyDate)
    (h : hasWrappedBirthday book = true) :
    exceptOk (get_upcoming_birthdays book today) = false := by
  have hc := collectBirthdays_wrapped_err today (book.map Prod.snd) h
  unfold get_upcoming_birthdays
  cases hcb : collectBirthdays today (book.map Prod.snd) with
  | error e => simp [exceptOk]
  | ok l => rw [hcb] at hc; simp [exceptOk] at hc

/-- Witness for C2: one contact whose birthday attribute is a wrapped
`date(1990, 6, 15)`; the call errors. -/
theorem C2_wrapped_birthday_crashes_witness :
    hasWrappedBirthday [("A", ⟨.raw "A", [], some (.wrapped ⟨1990, 6, 15⟩)⟩)] = true ∧
    exceptOk (get_upcoming_birthdays
      [("A", ⟨.raw "A", [], some (.wrapped ⟨1990, 6, 15⟩)⟩)] ⟨2024, 6, 10⟩) = false :=
  ⟨rfl, C2_wrapped_birthday_crashes _ ⟨2024, 6, 10⟩ rfl⟩

/-- C6: a freshly supplied `Phone` object — one not identical to any stored
entry, even when equal in digits — is never found: `find_phone` compares by
reference identity and falls off the loop, returning Python `None`.
Confirmed. -/
theorem C6_find_phone_fresh_never_found (phones : List PhoneObj) (phone : PhoneObj)
    (h : (phones.all fun p => p.objId != phone.objId) = true) :
    find_phone phones phone = none := by
  rw [List.all_eq_true] at h
  refine findPhoneGo_none phones phone phones ?_ ?_
  · intro p hp
    have := h p hp
    simpa [pyIs] using this
  · intro p hp
    rw [List.any_eq_true]
    exact ⟨p, hp, by simp [pyIs]⟩

/-- Witness for C6: the stored phone and the sought one carry the same ten
digits but are distinct objects; the lookup returns `None`. -/
theorem C6_find_phone_fresh_never_found_witness :
    ((([⟨0, "0123456789"⟩] : List PhoneObj)).all
      fun p => p.objId != (⟨1, "0123456789"⟩ : PhoneObj).objId) = true ∧
    find_phone [⟨0, "0123456789"⟩] ⟨1, "0123456789"⟩ = none :=
  ⟨rfl, C6_find_phone_fresh_never_found [⟨0, "0123456789"⟩] ⟨1, "0123456789"⟩ rfl⟩

/-- C9: `add-birthday` on an existing contact succeeds for every argument
string `b` — also strings that are not valid `DD.MM.YYYY` dates — and stores
`b` verbatim as a plain string: the handler never constructs a `Birthday`
wrapper, so no validation error can be raised.  Confirmed. -/
theorem C9_add_birthday_stores_raw (name b : String) (book : Book) (r : PyRecord)
    (h : dictGet book name = some r) :
    add_birthday_cmd [name, b] book =
      (.ok (colored_output (strOfName r.name ++ "\x27s birthday on " ++ b ++ " added")),
       dictSet book name ⟨r.name, r.phones, some (.str b)⟩) ∧
    dictGet (add_birthday_cmd [name, b] book).2 name =
      some ⟨r.name, r.phones, some (.str b)⟩ := by
  constructor
  · simp [add_birthday_cmd, h]
  · simp [add_birthday_cmd, h, dictGet_dictSet_self]

/-- Witness for C9: storing the non-date string `"not-a-date"` on an
existing contact succeeds and the stored birthday is that raw string. -/
theorem C9_add_birthday_stores_raw_witness :
    dictGet [("John", ⟨.raw "John", ["0123456789"], none⟩)] "John" =
      some ⟨.raw "John", ["0123456789"], none⟩ ∧
    add_birthday_cmd ["John", "not-a-date"] [("John", ⟨.raw "John", ["0123456789"], none⟩)] =
      (.ok (colored_output "John\x27s birthday on not-a-date added"),
       [("John", ⟨.raw "John", ["0123456789"], some (.str "not-a-date")⟩)]) ∧
    dictGet (add_birthday_cmd ["John", "not-a-date"]
        [("John", ⟨.raw "John", ["0123456789"], none⟩)]).2 "John" =
      some ⟨.raw "John", ["0123456789"], some (.str "not-a-date")⟩ :=
  ⟨rfl,
   (C9_add_birthday_stores_raw "John" "not-a-date"
     [("John", ⟨.raw "John", ["0123456789"], none⟩)] ⟨.raw "John", ["0123456789"], none⟩ rfl).1,
   (C9_add_birthday_stores_raw "John" "not-a-date"
     [("John", ⟨.raw "John", ["0123456789"], none⟩)] ⟨.raw "John", ["0123456789"], none⟩ rfl).2⟩

/-- Counterexample to C10 as stated: the empty phone string fails
`PhoneNumber` validation, yet `add` on a new name reports success — the
`if phone:` guard skips validation for a falsy string — while still
inserting the new empty record. -/
theorem C10_add_empty_phone_no_error :
    exceptOk (phoneInit "") = false ∧
    add_contact ["John", ""] [] =
      (.ok (colored_output "Contact John added to address book."),
       [("John", ⟨.raw "John", [], none⟩)]) :=
  ⟨rfl, rfl⟩

/-- C10 amended: for every name not yet in the book and every NON-EMPTY
phone string failing validation, `add` reports the validation `ValueError`
but has already inserted a fresh record with an empty phone list — the
operation mutates state on error.  (The empty string also fails validation
but is falsy, so no error is reported for it; see the counterexample.) -/
theorem C10_add_nonatomic (name phone : String) (book : Book)
    (hnew : dictGet book name = none) (hne : ¬ phone = "")
    (hbad : exceptOk (phoneInit phone) = false) :
    add_contact [name, phone] book =
      (.error (.valueError "Invalid phone number. The number must consist of 10 digits."),
       dictSet book name ⟨.raw name, [], none⟩) := by
  have hbeq : (phone == "") = false := beq_eq_false_iff_ne.mpr hne
  have herr := phoneInit_err_of_not_exceptOk phone hbad
  simp [add_contact, hnew, hbeq, herr, add_record, strOfName]

/-- Witness for C10: adding `John` with the invalid phone `"12"` to the
empty book reports the validation error and leaves `John` inserted with no
phones. -/
theorem C10_add_nonatomic_witness :
    dictGet [] "John" = none ∧ exceptOk (phoneInit "12") = false ∧
    add_contact ["John", "12"] [] =
      (.error (.valueError "Invalid phone number. The number must consist of 10 digits."),
       [("John", ⟨.raw "John", [], none⟩)]) :=
  ⟨rfl, rfl, C10_add_nonatomic "John" "12" [] rfl (by decide) rfl⟩

/-- Counterexample to C3 as stated: `"1234567890\n"` is not a string of
exactly ten decimal digits, yet `Phone` construction accepts it — the
CPython `\x24` anchor also matches just before one trailing newline. -/
theorem C3_trailing_newline_accepted :
    exceptOk (phoneInit "1234567890\n") = true ∧
    ¬ specExactlyTenDigits "1234567890\n" := by
  constructor
  · rfl
  · intro h
    have := h.1
    simp [String.data] at this

/-- C3 amended: `Phone` construction succeeds exactly on ten decimal digits
optionally followed by one trailing newline (the set `^\d{10}\x24` accepts
under CPython semantics), returning the raw string; on any other string it
fails with the phone `ValueError`. -/
theorem C3_phone_validation (s : String) :
    (exceptOk (phoneInit s) = true ↔ specTenDigitsNl s) ∧
    (phoneInit s = .ok s ∨
     phoneInit s =
       .error (.valueError "Invalid phone number. The number must consist of 10 digits.")) := by
  constructor
  · constructor
    · intro h
      have hre : phoneRe s.data = true := by
        unfold phoneInit at h
        cases hre : phoneRe s.data
        · rw [hre] at h; simp [exceptOk] at h
        · rfl
      unfold phoneRe at hre
      rw [Bool.or_eq_true] at hre
      rcases hre with h1 | h2
      · rw [Bool.and_eq_true] at h1
        refine ⟨s.data, Or.inl rfl, by simpa using h1.1, ?_⟩
        intro c hc
        exact (List.all_eq_true.mp h1.2) c hc
      · rw [Bool.and_eq_true, Bool.and_eq_true] at h2
        obtain ⟨⟨hlen, hdrop⟩, hlast⟩ := h2
        have hlen' : s.data.length = 11 := by simpa using hlen
        have hlast' : s.data.getLast? = some '\n' := by simpa using hlast
        refine ⟨s.data.dropLast, Or.inr ?_, ?_, ?_⟩
        · exact (List.dropLast_append_getLast? _ hlast').symm
        · simp [List.length_dropLast, hlen']
        · intro c hc
          exact (List.all_eq_true.mp hdrop) c hc
    · rintro ⟨t, ht, hlen, hdig⟩
      have hre : phoneRe s.data = true := by
        unfold phoneRe
        rw [Bool.or_eq_true]
        rcases ht with ht | ht
        · left
          rw [Bool.and_eq_true]
          exact ⟨by simp [ht, hlen], by rw [ht]; exact List.all_eq_true.mpr hdig⟩
        · right
          rw [Bool.and_eq_true, Bool.and_eq_true]
          refine ⟨⟨by simp [ht, hlen], ?_⟩, ?_⟩
          · rw [ht, List.dropLast_concat]
            exact List.all_eq_true.mpr hdig
          · rw [ht, List.getLast?_concat]
            rfl
      unfold phoneInit
      rw [hre]
      rfl
  · unfold phoneInit
    cases hre : phoneRe s.data
    · right; rfl
    · left; rfl

/-- Counterexample to C5 as stated: the record contains `old`, yet nothing
is replaced — `Phone(new)` raises for an invalid replacement string and the
phone list stays unchanged. -/
theorem C5_edit_phone_invalid_new_raises :
    edit_phone ["0123456789"] "0123456789" "12" =
      (.error (.valueError "Invalid phone number. The number must consist of 10 digits."),
       ["0123456789"]) := rfl

/-- C5 amended: when the record does not contain `old`, the list is
unchanged and a not-found message is returned without an error (for every
`new`, valid or not); when the record contains `old` and `new` passes phone
validation, exactly the first such entry is replaced by `new` and all other
entries are untouched; when the record contains `old` but `new` fails
validation, the `ValueError` is raised and the list is unchanged. -/
theorem C5_edit_phone (phones : List String) (old newP : String) :
    (old ∉ phones →
      edit_phone phones old newP = (.ok ("Phone " ++ old ++ " not found"), phones)) ∧
    (∀ pre post, phones = pre ++ old :: post → old ∉ pre →
      ((exceptOk (phoneInit newP) = true →
         edit_phone phones old newP =
           (.ok ("Phone " ++ old ++ " changed to " ++ newP), pre ++ newP :: post)) ∧
       (exceptOk (phoneInit newP) = false →
         edit_phone phones old newP =
           (.error (.valueError "Invalid phone number. The number must consist of 10 digits."),
            phones)))) := by
  constructor
  · exact edit_phone_not_found phones old newP
  · intro pre post heq hpre
    subst heq
    exact edit_phone_found old newP pre post hpre

/-- Witness for C5: replacing the second of two phones with a valid new
number changes exactly that entry. -/
theorem C5_edit_phone_witness :
    exceptOk (phoneInit "3333333333") = true ∧
    edit_phone ["1111111111", "2222222222"] "2222222222" "3333333333" =
      (.ok "Phone 2222222222 changed to 3333333333", ["1111111111", "3333333333"]) :=
  ⟨rfl,
   ((C5_edit_phone ["1111111111", "2222222222"] "2222222222" "3333333333").2
     ["1111111111"] [] rfl (by decide)).1 rfl⟩

end Phonebook
